import Mathlib

/-!
Verification development for the `cubes` repository (models.js / storage.js /
utils.js / painter.js / main.js).  The JavaScript sources are shallowly
embedded: dynamically-typed JS values become the inductive `JsV`, JS numbers
become exact rationals (float rounding is not modelled), thrown exceptions
become `Except` errors, and the IndexedDB-backed store becomes a pure map from
collection names to association lists, with a transaction's all-or-nothing
abort modelled by an `Except`-valued fold that discards every write on error.
-/

set_option autoImplicit false

namespace Cubes

/-- A JavaScript value, to the extent the program manipulates them: numbers
(as exact rationals, with `nan` a separate constructor since `ℚ` has no NaN;
infinities are outside the modelled fragment), strings, `undefined` (`null`
never occurs in the sources), arrays and plain objects.  Arrays and objects
are first-order cons-spines (`anil`/`acons`, `onil`/`ocons`) so that every
function over them is structurally recursive and kernel-reducible; the
builders `arrOf`/`objOf` make them from Lean lists, every construction site
in this development goes through those builders, and hence a spine's tail is
always another spine of the same kind. -/
inductive JsV where
  | num (q : ℚ)
  | str (s : String)
  | undefined
  | nan
  | anil
  | acons (head tail : JsV)
  | onil
  | ocons (key : String) (val rest : JsV)
  deriving DecidableEq

namespace JsV

/-- Array literal: `arrOf [a, b, c]` is the JS array `[a, b, c]`. -/
def arrOf : List JsV → JsV
  | [] => .anil
  | x :: xs => .acons x (arrOf xs)

/-- Object literal: `objOf [(k, v), ...]` is the JS object `{k: v, ...}`. -/
def objOf : List (String × JsV) → JsV
  | [] => .onil
  | (k, v) :: fs => .ocons k v (objOf fs)

/-- The element list of an array value (`none` on non-arrays; a malformed
spine, which no construction site produces, also reads as `none`). -/
def listOfArr : JsV → Option (List JsV)
  | .anil => some []
  | .acons x rest => (listOfArr rest).map (fun xs => x :: xs)
  | _ => none

/-- `Array.isArray`. -/
def isArr : JsV → Bool
  | .anil => true
  | .acons _ _ => true
  | _ => false

/-- Field lookup on an object (first match; the construction sites never
duplicate keys). -/
def objLookup : JsV → String → Option JsV
  | .ocons k v rest, name => if k = name then some v else objLookup rest name
  | _, _ => none

/-- JS ToString for the modelled fragment.  Integral numbers print as their
decimal integer numeral, exactly as JS prints integral doubles; non-integral
rationals have no exact JS printing and fall back to the Lean numeral (the
modelled programs never feed one to ToString).  Arrays print as
`Array.prototype.join` with ",": elements stringified recursively, with
`undefined` elements contributing the empty string.  Objects print as
"[object Object]". -/
def jsStr : JsV → String
  | .num q => if q.den = 1 then toString q.num else toString q
  | .str s => s
  | .undefined => "undefined"
  | .nan => "NaN"
  | .anil => ""
  | .acons .undefined .anil => ""
  | .acons x .anil => jsStr x
  | .acons .undefined rest => "," ++ jsStr rest
  | .acons x rest => jsStr x ++ "," ++ jsStr rest
  | .onil => "[object Object]"
  | .ocons _ _ _ => "[object Object]"

end JsV

/-- A thrown JS exception / rejected promise, one constructor per throw site
of the modelled code.  The spec's taxonomy maps onto these: the `invalid*`
structural constructors are its `ValidationError`s, `invalidOriginID` is its
`ConsistencyError`, `dataError` / `storeNotFound` are storage-level request
failures, and `typeError` / `referenceError` are ordinary runtime faults. -/
inductive JsErr where
  | invalidValueArray
  | invalidColorRange
  | invalidPosition
  | invalidWeight
  | invalidProximity
  | invalidVertexArray
  | invalidCenter
  | invalidMatrixLayers
  | invalidBinData
  | invalidOriginID (expected got : String)
  | dataError
  | storeNotFound (name : String)
  | typeError (ctx : String)
  | referenceError (name : String)
  deriving DecidableEq

/-- The spec's `ValidationError` sub-kinds: the structural/range/type checks
of `validateEntity`. -/
def JsErr.isValidationError : JsErr → Bool
  | .invalidValueArray | .invalidColorRange | .invalidPosition | .invalidWeight
  | .invalidProximity | .invalidVertexArray | .invalidCenter
  | .invalidMatrixLayers | .invalidBinData => true
  | _ => false

/-- The spec's `ConsistencyError`: the originID mismatch throw of
`validateOriginID`. -/
def JsErr.isConsistencyError : JsErr → Bool
  | .invalidOriginID _ _ => true
  | _ => false

/-- Whether an `Except`-modelled JS computation threw. -/
def isErr {ε α : Type} : Except ε α → Bool
  | .error _ => true
  | .ok _ => false

/-- The thrown error of an `Except`-modelled JS computation, when any. -/
def errOf {ε α : Type} : Except ε α → Option ε
  | .error e => some e
  | .ok _ => none

/-- Decidable equality of `Except` results, for evaluating concrete
outcomes. -/
instance {ε α : Type} [DecidableEq ε] [DecidableEq α] : DecidableEq (Except ε α) := fun a b =>
  match a, b with
  | .ok x, .ok y =>
    match decEq x y with
    | isTrue h => isTrue (congrArg Except.ok h)
    | isFalse h => isFalse (fun hh => h (Except.ok.inj hh))
  | .error x, .error y =>
    match decEq x y with
    | isTrue h => isTrue (congrArg Except.error h)
    | isFalse h => isFalse (fun hh => h (Except.error.inj hh))
  | .ok _, .error _ => isFalse (fun hh => Except.noConfusion hh)
  | .error _, .ok _ => isFalse (fun hh => Except.noConfusion hh)

namespace JsV

/-- Parse the decimal body of a JS numeric string: digits with an optional
fractional part (`"12"`, `"12.5"`, `".5"`, `"12."`).  Exponents, hex/octal/
binary literals and `"Infinity"` are outside the modelled fragment and parse
to `none` (NaN). -/
def parseDecBody (cs : List Char) : Option ℚ :=
  let intPart := cs.takeWhile Char.isDigit
  let rest := cs.dropWhile Char.isDigit
  let intVal : ℚ := intPart.foldl (fun (a : ℚ) c => a * 10 + ((c.toNat - 48 : ℕ) : ℚ)) (0 : ℚ)
  match rest with
  | [] => if intPart.isEmpty then none else some intVal
  | '.' :: frac =>
    if frac.all Char.isDigit ∧ ¬(intPart.isEmpty ∧ frac.isEmpty) then
      some (intVal + (frac.foldl (fun (a : ℚ) c => a * 10 + ((c.toNat - 48 : ℕ) : ℚ)) (0 : ℚ)) / 10 ^ frac.length)
    else none
  | _ => none

/-- JS `Number(string)`: whitespace-trimmed; empty means 0; optional sign;
decimal body per `parseDecBody`; anything else is NaN (`none`). -/
def parseJsNumber (s : String) : Option ℚ :=
  let t := s.trim
  if t = "" then some 0
  else
    match t.data with
    | '+' :: cs => parseDecBody cs
    | '-' :: cs => (parseDecBody cs).map Neg.neg
    | cs => parseDecBody cs

/-- JS ToNumber on the fragment, `none` standing for NaN.  Arrays coerce via
ToPrimitive (their join string) and then numeric parsing; objects coerce to
"[object Object]", i.e. NaN. -/
def toNumber : JsV → Option ℚ
  | .num q => some q
  | .str s => parseJsNumber s
  | .anil => parseJsNumber (jsStr .anil)
  | .acons x rest => parseJsNumber (jsStr (.acons x rest))
  | .onil => none
  | .ocons _ _ _ => none
  | .undefined => none
  | .nan => none

/-- JS truthiness: 0, NaN, the empty string and undefined are falsy; every
array and object is truthy. -/
def truthy : JsV → Bool
  | .num q => q ≠ 0
  | .str s => s ≠ ""
  | .undefined => false
  | .nan => false
  | _ => true

/-- Loose numeric comparison `v < n` against a number literal (JS relational
operators apply ToNumber here since one operand is a number; NaN compares
false). -/
def ltNum (v : JsV) (n : ℚ) : Bool :=
  match v.toNumber with
  | some q => q < n
  | none => false

/-- Loose numeric comparison `v > n` against a number literal. -/
def gtNum (v : JsV) (n : ℚ) : Bool :=
  match v.toNumber with
  | some q => n < q
  | none => false

/-- Loose numeric comparison `v >= n` against a number literal. -/
def geNum (v : JsV) (n : ℚ) : Bool :=
  match v.toNumber with
  | some q => n ≤ q
  | none => false

/-- JS unary minus on the fragment (numeric coercion; NaN stays NaN). -/
def jsNeg (v : JsV) : JsV :=
  match v.toNumber with
  | some q => .num (-q)
  | none => .nan

/-- ToPrimitive on the fragment: arrays and objects convert via their
string, primitives are themselves. -/
def toPrim : JsV → JsV
  | .anil => .str (jsStr .anil)
  | .acons x r => .str (jsStr (.acons x r))
  | .onil => .str (jsStr .onil)
  | .ocons k v r => .str (jsStr (.ocons k v r))
  | v => v

/-- JS binary `+`: if either operand's primitive is a string the result is
string concatenation, otherwise numeric addition (NaN-propagating).
`toPrim` is ToPrimitive on the fragment: arrays and objects convert via
their string, primitives are themselves. -/
def jsAdd (a b : JsV) : JsV :=
  match toPrim a, toPrim b with
  | .str s, t => .str (s ++ t.jsStr)
  | s, .str t => .str (s.jsStr ++ t)
  | s, t =>
    match s.toNumber, t.toNumber with
    | some p, some q => .num (p + q)
    | _, _ => .nan

/-- JS binary `-` (always numeric). -/
def jsSub (a b : JsV) : JsV :=
  match a.toNumber, b.toNumber with
  | some p, some q => .num (p - q)
  | _, _ => .nan

/-- JS binary `*` (always numeric). -/
def jsMul (a b : JsV) : JsV :=
  match a.toNumber, b.toNumber with
  | some p, some q => .num (p * q)
  | _, _ => .nan

/-- `Math.min` of two values (numeric coercion, NaN-propagating). -/
def jsMin (a b : JsV) : JsV :=
  match a.toNumber, b.toNumber with
  | some p, some q => .num (min p q)
  | _, _ => .nan

/-- `Math.max` of two values (numeric coercion, NaN-propagating). -/
def jsMax (a b : JsV) : JsV :=
  match a.toNumber, b.toNumber with
  | some p, some q => .num (max p q)
  | _, _ => .nan

/-- Named property access `v.name` / `v[name]`.  Objects look the name up in
their own fields; arrays and primitives have none of the properties this
program reads (built-ins such as `length` are never accessed by name here),
so the access yields undefined; on `undefined` itself it throws a TypeError,
as in JS. -/
def propE (v : JsV) (name : String) : Except JsErr JsV :=
  match v with
  | .undefined => .error (.typeError ("read " ++ name ++ " of undefined"))
  | v => .ok ((objLookup v name).getD .undefined)

/-- Element access on an array spine. -/
def arrGet : JsV → ℕ → Option JsV
  | .acons x _, 0 => some x
  | .acons _ rest, n + 1 => arrGet rest n
  | _, _ => none

/-- Numeric index access `v[i]`.  Arrays yield the element (undefined when
out of bounds); strings yield the single-character string; objects look up
the stringified index; other primitives autobox and yield undefined;
`undefined[i]` throws a TypeError. -/
def idxE (v : JsV) (i : ℕ) : Except JsErr JsV :=
  match v with
  | .undefined => .error (.typeError "index of undefined")
  | .str s => .ok (if h : i < s.data.length then .str (String.mk [s.data.get ⟨i, h⟩]) else .undefined)
  | .ocons k w rest => .ok ((objLookup (.ocons k w rest) (toString i)).getD .undefined)
  | v => .ok ((arrGet v i).getD .undefined)

/-- Iteration (`for..of`, spread): arrays iterate their elements, strings
their characters; other values are not iterable and throw a TypeError. -/
def toListE (v : JsV) : Except JsErr (List JsV) :=
  match listOfArr v with
  | some xs => .ok xs
  | none =>
    match v with
    | .str s => .ok (s.data.map (fun c => .str (String.mk [c])))
    | _ => .error (.typeError "not iterable")

/-- Array destructuring `const [x, y, z] = v` (first three iterates, missing
ones undefined). -/
def destructure3 (v : JsV) : Except JsErr (JsV × JsV × JsV) := do
  let xs ← v.toListE
  pure (xs.getD 0 .undefined, xs.getD 1 .undefined, xs.getD 2 .undefined)

end JsV

/-- The `calculateProximityPadding` helper of utils.js:
`weight >= 0 ? weight : -weight` for a numeric weight. -/
def calculateProximityPadding (weight : ℚ) : ℚ :=
  if 0 ≤ weight then weight else -weight

/-- A stored entity: one JS object restricted to the fields this program
ever reads or writes, each `undefined` unless set.  Construction sites
(model classes, object literals) populate a subset of the fields. -/
structure Entity where
  id : JsV := .undefined
  vertexID : JsV := .undefined
  logicId : JsV := .undefined
  windowUID : JsV := .undefined
  cubeId : JsV := .undefined
  subCubeID : JsV := .undefined
  originID : JsV := .undefined
  value : JsV := .undefined
  valueArray : JsV := .undefined
  vertexArray : JsV := .undefined
  center : JsV := .undefined
  order : JsV := .undefined
  blendingLogicId : JsV := .undefined
  activeWindowUID : JsV := .undefined
  proximityPadding : JsV := .undefined
  redLayer : JsV := .undefined
  greenLayer : JsV := .undefined
  blueLayer : JsV := .undefined
  binData : JsV := .undefined
  deriving DecidableEq

/-- The CubeVertex model-class constructor (models.js): packs position and
color into `valueArray`. -/
def CubeVertex.make (vertexID windowUID position color blendingLogicId : JsV) : Entity :=
  { vertexID := vertexID, windowUID := windowUID,
    valueArray := .arrOf [position, color], blendingLogicId := blendingLogicId }

/-- The Cube model-class constructor (models.js): `value` packs position,
subcube ids and the vertices' `valueArray`s by value. -/
def Cube.make (id windowUID position subcubeIDs : JsV) (vertices : List Entity)
    (blendingLogicId : JsV) : Entity :=
  { id := id, windowUID := windowUID,
    value := .arrOf [position, subcubeIDs, .arrOf (vertices.map (fun v => v.valueArray))],
    blendingLogicId := blendingLogicId }

/-- The SubcubeVertex model-class constructor (models.js lines 52-61).  It
stores the 4-tuple `[color, position, weight, proximity]` in the field
`value` and sets no `valueArray`.  Its derived-padding line
`value[2] >= 0 ? value[2] : -value[2]` reads `value[2]`, which itself throws
when `value` is undefined, hence the `Except`. -/
def SubcubeVertex.make (id windowUID cubeId subCubeID originID value activeWindowUID : JsV) :
    Except JsErr Entity := do
  let w ← value.idxE 2
  pure { id := id, windowUID := windowUID, cubeId := cubeId, subCubeID := subCubeID,
         originID := originID, value := value, activeWindowUID := activeWindowUID,
         proximityPadding := if w.geNum 0 then w else w.jsNeg }

/-- The Subcube model-class constructor (models.js). -/
def Subcube.make (id windowUID center order vertexArray cubeId originID blendingLogicId : JsV) :
    Entity :=
  { id := id, windowUID := windowUID, center := center, order := order,
    vertexArray := vertexArray, cubeId := cubeId, originID := originID,
    blendingLogicId := blendingLogicId }

/-- One object store: an association list from key to record, first match
wins (keys are unique by construction of `putK`). -/
abbrev Coll := List (JsV × Entity)

/-- Upsert-by-key, the effect of IDBObjectStore.put. -/
def Coll.putK : Coll → JsV → Entity → Coll
  | [], k, e => [(k, e)]
  | (k1, e1) :: rest, k, e =>
    if k1 = k then (k, e) :: rest else (k1, e1) :: Coll.putK rest k e

/-- Point lookup by key, the effect of IDBObjectStore.get (`none` models the
`undefined` result on a miss; keys are unique, so first match is the
match). -/
def Coll.getK : Coll → JsV → Option Entity
  | [], _ => none
  | (k1, e1) :: rest, k => if k1 = k then some e1 else Coll.getK rest k

/-- The object stores created by CubeStorage.init. -/
def storeNames : List String :=
  ["Cubes", "CubeVertices", "Subcubes", "SubcubeVertices", "CubeMatrix",
   "SubcubeMatrix", "BackgroundMatrix", "BlendingLogic", "ZAxisConfig"]

/-- The key an entity is stored under, per the keyPath of each object store
in CubeStorage.init ("vertexID" for CubeVertices, "logicId" for
BlendingLogic, "id" everywhere else). -/
def Entity.keyOf (e : Entity) (storeName : String) : JsV :=
  if storeName = "CubeVertices" then e.vertexID
  else if storeName = "BlendingLogic" then e.logicId
  else e.id

/-- Valid IndexedDB keys on the fragment: numbers (never NaN — that is the
separate `nan` constructor), strings, and arrays of valid keys.  A put whose
extracted key is invalid fails with a DataError. -/
def isValidKey : JsV → Bool
  | .num _ => true
  | .str _ => true
  | .anil => true
  | .acons x rest => isValidKey x && isValidKey rest
  | _ => false

/-- The database state after a successful `init`: a collection per store
name.  Only the nine names of `storeNames` are addressable; the function is
total for convenience and unused elsewhere. -/
structure Store where
  tbl : String → Coll

/-- The freshly initialized database: every store exists and is empty. -/
def Store.empty : Store := ⟨fun _ => []⟩

/-- A single put request against one store: extracts the key per the store's
keyPath, fails with DataError on an invalid key (aborting the surrounding
transaction), upserts otherwise.  Addressing a store that does not exist
fails as the transaction construction would. -/
def Store.put (db : Store) (storeName : String) (e : Entity) : Except JsErr Store :=
  if storeName ∈ storeNames then
    if isValidKey (e.keyOf storeName) then
      .ok ⟨Function.update db.tbl storeName ((db.tbl storeName).putK (e.keyOf storeName) e)⟩
    else .error .dataError
  else .error (.storeNotFound storeName)

namespace CubeStorage

/-- The color test of `validateEntity`:
`!Array.isArray(color) || color.length !== 3 || color.some(c => c < 0 || c > 255)`. -/
def badColor (color : JsV) : Bool :=
  match color.listOfArr with
  | some cs => cs.length != 3 || cs.any (fun c => c.ltNum 0 || c.gtNum 255)
  | none => true

/-- The position/center test of `validateEntity`:
`!Array.isArray(v) || v.length !== 3`. -/
def badTriple (v : JsV) : Bool :=
  match v.listOfArr with
  | some ps => ps.length != 3
  | none => true

/-- The Subcube vertexArray test of `validateEntity`:
`!Array.isArray(va) || !va.every(v => Array.isArray(v) && v.length === 2)`. -/
def badVertexArray (va : JsV) : Bool :=
  match va.listOfArr with
  | some vs =>
    !(vs.all (fun v => match v.listOfArr with | some p => p.length == 2 | none => false))
  | none => true

/-- `Array.isArray`. -/
def isArrayV : JsV → Bool := JsV.isArr

/-- The CubeVertices/SubcubeVertices branch of `CubeStorage.validateEntity`
(models.js lines 194-203): `valueArray` must be the 4-tuple
`[color, position, weight, proximity]` with a 3-channel in-range color, a
3-element position, a non-NaN numeric weight and a string proximity; on
success the entity's `proximityPadding` is overwritten with
`weight >= 0 ? weight : -weight`. -/
def validateVertexKind (entity : Entity) : Except JsErr Entity :=
  match entity.valueArray.listOfArr with
  | some [color, position, weight, proximity] =>
    if badColor color then .error .invalidColorRange
    else if badTriple position then .error .invalidPosition
    else
      match weight with
      | .num w =>
        (match proximity with
         | .str _ => .ok { entity with proximityPadding := .num (if 0 ≤ w then w else -w) }
         | _ => .error .invalidProximity)
      | _ => .error .invalidWeight
  | _ => .error .invalidValueArray

/-- `CubeStorage.validateEntity` (models.js lines 191-216): the switch over
store names.  The default branch — notably the one taken for "Cubes" and
"CubeVertices"-unrelated stores — applies no check at all.  The model
assumes `init` has completed (`this.db` non-null). -/
def validateEntity (entity : Entity) (storeName : String) : Except JsErr Entity :=
  if storeName = "CubeVertices" ∨ storeName = "SubcubeVertices" then
    validateVertexKind entity
  else if storeName = "Subcubes" then
    if badVertexArray entity.vertexArray then .error .invalidVertexArray
    else if badTriple entity.center then .error .invalidCenter
    else .ok entity
  else if storeName = "CubeMatrix" ∨ storeName = "SubcubeMatrix" ∨ storeName = "BackgroundMatrix" then
    if !(isArrayV entity.redLayer && isArrayV entity.greenLayer && isArrayV entity.blueLayer) then
      .error .invalidMatrixLayers
    else if !isArrayV entity.binData then .error .invalidBinData
    else .ok entity
  else .ok entity

/-- `CubeStorage.validateOriginID` (models.js lines 218-222): the originID
must be strictly equal to the template string `windowUID` followed by
`cubeId`. -/
def validateOriginID (originID windowUID cubeId : JsV) : Except JsErr Unit :=
  let expected := windowUID.jsStr ++ cubeId.jsStr
  if originID = .str expected then .ok ()
  else .error (.invalidOriginID expected originID.jsStr)

/-- `CubeStorage.save` (models.js lines 224-240): validate (which may rewrite
`proximityPadding` in place), then for Subcubes/SubcubeVertices check the
originID invariant, then put in a fresh readwrite transaction.  Every error
path surfaces before or instead of the write. -/
def save (db : Store) (entity : Entity) (storeName : String) : Except JsErr Store := do
  let e ← validateEntity entity storeName
  if storeName = "Subcubes" ∨ storeName = "SubcubeVertices" then do
    let _ ← validateOriginID e.originID e.windowUID e.cubeId
    db.put storeName e
  else
    db.put storeName e

/-- `CubeStorage.get` (models.js lines 242-254): point lookup; a miss
resolves with `undefined` (`none`), never an error. -/
def get (db : Store) (key : JsV) (storeName : String) : Except JsErr (Option Entity) :=
  if storeName ∈ storeNames then .ok ((db.tbl storeName).getK key)
  else .error (.storeNotFound storeName)

/-- The bundle argument of `updateCubeHierarchy`; the three lists may be
absent (`undefined`) as the code guards for. -/
structure CubeData where
  cube : Entity
  subcubes : Option (List Entity) := none
  subcubeVertices : Option (List Entity) := none
  cubeVertices : Option (List Entity) := none

/-- Issue one put per entity on the transaction; the first failing request
aborts the whole transaction. -/
def putAll (db : Store) (storeName : String) (es : List Entity) : Except JsErr Store :=
  es.foldlM (fun d e => d.put storeName e) db

/-- `CubeStorage.updateCubeHierarchy` (models.js lines 284-340): one
readwrite transaction over the four hierarchy stores, a put per bundle
entity, resolving when all complete.  No entity is validated.  An IndexedDB
request error aborts the transaction, rolling back every write: modelled by
the `Except` fold, whose error discards the working store. -/
def updateCubeHierarchy (db : Store) (cubeData : CubeData) : Except JsErr Store := do
  let d1 ← db.put "Cubes" cubeData.cube
  let d2 ← putAll d1 "Subcubes" (cubeData.subcubes.getD [])
  let d3 ← putAll d2 "SubcubeVertices" (cubeData.subcubeVertices.getD [])
  putAll d3 "CubeVertices" (cubeData.cubeVertices.getD [])

end CubeStorage

/-- A point in 3-space with exact rational coordinates. -/
structure Vec3 where
  x : ℚ
  y : ℚ
  z : ℚ
  deriving DecidableEq

namespace SpatialIndex

/-- `spatialIndex.getBinCoords`: per-axis `Math.floor(position / binSize)`. -/
def getBinCoords (binSize : ℚ) (p : Vec3) : ℤ × ℤ × ℤ :=
  (⌊p.x / binSize⌋, ⌊p.y / binSize⌋, ⌊p.z / binSize⌋)

/-- Squared Euclidean distance between two points. -/
def distSq (p q : Vec3) : ℚ :=
  (p.x - q.x) ^ 2 + (p.y - q.y) ^ 2 + (p.z - q.z) ^ 2

/-- The exact distance check of `queryNearPosition`,
`Math.sqrt(dx^2 + dy^2 + dz^2) <= radius`, stated without square roots:
for a nonnegative d2, `sqrt d2 ≤ r` iff `0 ≤ r ∧ d2 ≤ r ^ 2`. -/
def withinRadius (p q : Vec3) (radius : ℚ) : Bool :=
  decide (0 ≤ radius) && decide (distSq p q ≤ radius ^ 2)

/-- The bin map built by `buildSpatialIndex` (models.js lines 480-508):
every entity is appended to the cell of its bin coordinates, and the string
cell keys `"x,y,z"` are in bijection with the integer triples, so the cell
at key k holds exactly the indexed entities whose bin coordinates are k, in
input order, and an untouched key holds none. -/
def binCell {α : Type} (pos : α → Vec3) (binSize : ℚ) (entities : List α)
    (k : ℤ × ℤ × ℤ) : List α :=
  entities.filter (fun e => decide (getBinCoords binSize (pos e) = k))

/-- Inclusive integer interval: the values taken by
`for (let i = lo; i <= hi; i++)`. -/
def intRange (lo hi : ℤ) : List ℤ :=
  (List.range (hi + 1 - lo).toNat).map (fun i : ℕ => lo + (i : ℤ))

/-- `spatialIndex.queryNearPosition` (models.js lines 448-477) for one
entity class together with its position extractor (cubes use `value[0]`,
subcubes `center`, subcube vertices `value[1]`; the source fills the three
result lists of one record in a single sweep, which coincides with three
independent sweeps): visit every cell of the cube-shaped neighborhood of
half-width `radiusInBins = ceil(radius / binSize)` around the query point's
cell and keep the candidates passing the exact distance check. -/
def queryNearPosition {α : Type} (pos : α → Vec3) (binSize : ℚ) (entities : List α)
    (point : Vec3) (radius : ℚ) : List α :=
  let radiusInBins := ⌈radius / binSize⌉
  let c := getBinCoords binSize point
  (intRange (c.1 - radiusInBins) (c.1 + radiusInBins)).flatMap (fun bx =>
    (intRange (c.2.1 - radiusInBins) (c.2.1 + radiusInBins)).flatMap (fun b2 =>
      (intRange (c.2.2 - radiusInBins) (c.2.2 + radiusInBins)).flatMap (fun b3 =>
        (binCell pos binSize entities (bx, b2, b3)).filter
          (fun e => withinRadius point (pos e) radius))))

end SpatialIndex

/-- The params object `{weight, ambient}` handed to a blend strategy. -/
structure BlendParams where
  weight : JsV := .undefined
  ambient : JsV := .undefined

/-- A blend strategy as stored in the utils.js registry; throwing is
modelled by the `Except`. -/
abbrev BlendFn := JsV → JsV → BlendParams → Except JsErr JsV

namespace blendingFunctions

/-- One additive channel of `blendBackground`:
`Math.min(255, color1[i] + color2[i] + ambient[i])`. -/
def bgChannel (color1 color2 ambient : JsV) (i : ℕ) : Except JsErr JsV := do
  let a ← color1.idxE i
  let b ← color2.idxE i
  let m ← ambient.idxE i
  pure (JsV.jsMin (.num 255) (JsV.jsAdd (JsV.jsAdd a b) m))

/-- `blendingFunctions.blendBackground` (utils.js lines 19-25): additive
blend clamped to 255 per channel. -/
def blendBackground : BlendFn := fun color1 color2 params => do
  let c0 ← bgChannel color1 color2 params.ambient 0
  let c1 ← bgChannel color1 color2 params.ambient 1
  let c2 ← bgChannel color1 color2 params.ambient 2
  pure (.arrOf [c0, c1, c2])

/-- One channel of `BlendVrtxByWeight`:
`color1[i] * (1 - weight) + color2[i] * weight + ambient[i]`. -/
def vrtxChannel (color1 color2 weight ambient : JsV) (i : ℕ) : Except JsErr JsV := do
  let a ← color1.idxE i
  let b ← color2.idxE i
  let m ← ambient.idxE i
  pure (JsV.jsAdd (JsV.jsAdd (JsV.jsMul a (JsV.jsSub (.num 1) weight)) (JsV.jsMul b weight)) m)

/-- `blendingFunctions.BlendVrtxByWeight` (utils.js lines 12-18): linear
interpolation by weight plus ambient, unclamped. -/
def BlendVrtxByWeight : BlendFn := fun color1 color2 params => do
  let c0 ← vrtxChannel color1 color2 params.weight params.ambient 0
  let c1 ← vrtxChannel color1 color2 params.weight params.ambient 1
  let c2 ← vrtxChannel color1 color2 params.weight params.ambient 2
  pure (.arrOf [c0, c1, c2])

/-- `blendingFunctions.BlendCornerByProximity` (utils.js lines 3-11): the
padding is computed from the weight, and then the body reads the identifier
`distanceToSubject`, which is bound nowhere in the program (and the modules
are strict mode), so every invocation throws a ReferenceError before
producing a color; the interpolation arithmetic after the read is dead
code. -/
def BlendCornerByProximity : BlendFn := fun _ _ params =>
  let _padding := if params.weight.geNum 0 then params.weight else params.weight.jsNeg
  .error (.referenceError "distanceToSubject")

/-- The own properties of the blendingFunctions object literal. -/
def ownBlendingFunctions (name : String) : Option BlendFn :=
  if name = "BlendCornerByProximity" then some BlendCornerByProximity
  else if name = "BlendVrtxByWeight" then some BlendVrtxByWeight
  else if name = "blendBackground" then some blendBackground
  else none

/-- Property names a plain object literal inherits from Object.prototype.
`blendingFunctions[p]` is a JS property lookup, so for these names it
yields a defined, truthy value (a function, or for `__proto__` an object)
rather than undefined, and the `|| blendingFunctions.blendBackground`
fallback does not engage. -/
def objectPrototypeNames : List String :=
  ["constructor", "hasOwnProperty", "isPrototypeOf", "propertyIsEnumerable",
   "toLocaleString", "toString", "valueOf", "__proto__", "__defineGetter__",
   "__defineSetter__", "__lookupGetter__", "__lookupSetter__"]

/-- Invoking an inherited Object.prototype member as the blend function.
The modules are strict mode, so `this` inside the call is undefined:
`toString` returns "[object Undefined]"; `constructor` is `Object`, which
returns its first argument unchanged for the object (array) arguments it
receives here; the remaining members throw a TypeError (they coerce their
undefined `this` to an object, or — for `__proto__`, which evaluates via
its getter to Object.prototype — are not callable). -/
def inheritedCall (name : String) (arg1 : JsV) : Except JsErr JsV :=
  if name = "toString" then .ok (.str "[object Undefined]")
  else if name = "constructor" then .ok arg1
  else .error (.typeError name)

end blendingFunctions

namespace Painter

/-- `Painter.prototype.blend` (painter.js lines 39-42):
`const blendFunc = blendingFunctions[proximity] || blendingFunctions.blendBackground;`
followed by `blendFunc(color1, color2, {weight, ambient: this.ambientValue})`.
The computed property key is the stringification of `proximity`, and the
lookup consults the object's own entries and then its prototype chain. -/
def blend (ambientValue : JsV) (color1 color2 : JsV) (weight proximity : JsV) :
    Except JsErr JsV :=
  let key := proximity.jsStr
  match blendingFunctions.ownBlendingFunctions key with
  | some f => f color1 color2 { weight := weight, ambient := ambientValue }
  | none =>
    if key ∈ blendingFunctions.objectPrototypeNames then
      blendingFunctions.inheritedCall key color1
    else
      blendingFunctions.blendBackground color1 color2 { weight := weight, ambient := ambientValue }

/-- One compositing bin, `{color, active, depth}`. -/
structure Bin where
  color : JsV
  active : Bool
  depth : JsV
  deriving DecidableEq

/-- The painter's bin map: a JS `Map` in insertion order. -/
abbrev Bins := List (String × Bin)

/-- `Map.prototype.get` (with `none` for a missing key). -/
def Bins.getB : Bins → String → Option Bin
  | [], _ => none
  | (k1, b) :: rest, k => if k1 = k then some b else Bins.getB rest k

/-- `Map.prototype.set`: overwrite in place or append. -/
def Bins.setB : Bins → String → Bin → Bins
  | [], k, b => [(k, b)]
  | (k1, b1) :: rest, k, b =>
    if k1 = k then (k, b) :: rest else (k1, b1) :: Bins.setB rest k b

/-- `Math.floor(v / binSize)` as used for the row/col/depth bins.  Non-
numeric inputs floor to NaN; a zero binSize would give ±Infinity in JS,
which is outside the modelled fragment (no theorem exercises it) and maps
to NaN here. -/
def floorBin (v : JsV) (binSize : ℚ) : JsV :=
  match v.toNumber with
  | some q => if binSize = 0 then .nan else .num ⌊q / binSize⌋
  | none => .nan

/-- The running value of `findFarthestDepth`'s accumulator: it starts at
`-Infinity`, and one NaN z poisons it permanently (`Math.max`). -/
inductive DepthVal where
  | negInf
  | nan
  | fin (q : ℚ)
  deriving DecidableEq

/-- `Math.max(maxZ, z)` with `z` a raw JS value. -/
def maxStep (m : DepthVal) (z : JsV) : DepthVal :=
  match z.toNumber, m with
  | none, _ => .nan
  | some _, .nan => .nan
  | some q, .negInf => .fin q
  | some q, .fin p => .fin (max p q)

/-- The inclusion filter `z <= maxDepth + 1` (comparisons against NaN are
false, and nothing is `<= -Infinity`). -/
def depthFilter (z : JsV) (m : DepthVal) : Bool :=
  match z.toNumber, m with
  | some q, .fin p => decide (q ≤ p + 1)
  | _, _ => false

/-- The per-item vertex enumeration of both painter loops:
`item.value[2] || item.vertexArray.map(v => ({valueArray: v}))`, then
`for..of` over the chosen value. -/
def extractVertexList (item : JsV) : Except JsErr (List JsV) := do
  let value ← item.propE "value"
  let v2 ← value.idxE 2
  if v2.truthy then
    v2.toListE
  else do
    let va ← item.propE "vertexArray"
    match va.listOfArr with
    | some xs => .ok (xs.map (fun v => .objOf [("valueArray", v)]))
    | none => .error (.typeError "map is not a function")

/-- The vertex-field read pattern `vertex.valueArray[i] || vertex.value[i]`
(with `va` the already-read `vertex.valueArray`): positions use i = 1,
colors i = 0, weights i = 2.  A falsy first read (for example a weight of
0) falls through to `vertex.value[i]`, which throws when `value` is
absent. -/
def vertexField (vertex va : JsV) (i : ℕ) : Except JsErr JsV := do
  let vai ← va.idxE i
  if vai.truthy then pure vai
  else do
    let v ← vertex.propE "value"
    v.idxE i

/-- The position record of a processed vertex,
`vertex.valueArray[1] || vertex.value[1]`. -/
def vertexPos (vertex : JsV) : Except JsErr JsV := do
  let va ← vertex.propE "valueArray"
  vertexField vertex va 1

/-- The bin key `row,col[,depthBin]` of a destructured position. -/
def binKeyOf (binSize : ℚ) (isBackground : Bool) (xyz : JsV × JsV × JsV) : String :=
  let row := floorBin xyz.1 binSize
  let col := floorBin xyz.2.1 binSize
  let depthBin := floorBin xyz.2.2 binSize
  if isBackground then row.jsStr ++ "," ++ col.jsStr ++ "," ++ depthBin.jsStr
  else row.jsStr ++ "," ++ col.jsStr

/-- Lazy bin initialization: on first touch the bin starts from a spread
copy of the ambient value (which throws when the ambient value is not
iterable), inactive, at the vertex's z. -/
def ensureBin (ambientValue : JsV) (bins : Bins) (binKey : String) (z : JsV) :
    Except JsErr Bins :=
  match Bins.getB bins binKey with
  | some _ => pure bins
  | none => do
    let amb ← ambientValue.toListE
    pure (Bins.setB bins binKey { color := .arrOf amb, active := false, depth := z })

/-- The strategy-identifier resolution
`vertex.valueArray[3] || vertex[1] || 'blendBackground'`. -/
def resolveBlendLogic (vertex va : JsV) : Except JsErr JsV := do
  let va3 ← va.idxE 3
  if va3.truthy then pure va3
  else do
    let v1 ← vertex.idxE 1
    pure (if v1.truthy then v1 else .str "blendBackground")

/-- `Painter.findFarthestDepth` (painter.js): the running `Math.max` of
`(vertex.valueArray[1] || vertex.value[1])[2]` over every processed
vertex. -/
def findFarthestDepth (data : List JsV) : Except JsErr DepthVal :=
  data.foldlM (fun m item => do
    let vs ← extractVertexList item
    vs.foldlM (fun m2 vertex => do
      let posV ← vertexPos vertex
      let z ← posV.idxE 2
      pure (maxStep m2 z)) m) .negInf

/-- The strategy identifier a vertex resolves to inside `createBins`, when
its processing reaches the resolution step
`vertex.valueArray[3] || vertex[1] || 'blendBackground'` (the resolution
sits inside `if (z <= maxDepth + 1)`, so a filtered-out vertex resolves to
nothing). -/
def resolvedStrategy (maxD : DepthVal) (vertex : JsV) : Except JsErr (Option JsV) := do
  let va ← vertex.propE "valueArray"
  let posV ← vertexField vertex va 1
  let xyz ← JsV.destructure3 posV
  if depthFilter xyz.2.2 maxD then do
    let r ← resolveBlendLogic vertex va
    pure (some r)
  else pure none

/-- The body of `createBins`'s inner loop (painter.js lines 13-33) for one
vertex: extract and destructure the position, compute the bin key, lazily
initialize the bin with a copy of the ambient value, and — when the depth
filter passes — resolve the strategy identifier, blend into the bin's
color, mark it active, and for background bins raise the stored depth. -/
def processVertex (binSize : ℚ) (ambientValue : JsV) (maxD : DepthVal) (isBackground : Bool)
    (bins : Bins) (vertex : JsV) : Except JsErr Bins := do
  let va ← vertex.propE "valueArray"
  let posV ← vertexField vertex va 1
  let xyz ← JsV.destructure3 posV
  let binKey := binKeyOf binSize isBackground xyz
  let bins1 ← ensureBin ambientValue bins binKey xyz.2.2
  if depthFilter xyz.2.2 maxD then do
    let blendLogic ← resolveBlendLogic vertex va
    let bin := (Bins.getB bins1 binKey).getD { color := .undefined, active := false, depth := .undefined }
    let c2 ← vertexField vertex va 0
    let w ← vertexField vertex va 2
    let newColor ← blend ambientValue bin.color c2 w blendLogic
    let bins2 := Bins.setB bins1 binKey { color := newColor, active := true, depth := bin.depth }
    if isBackground then
      let b2 := (Bins.getB bins2 binKey).getD { color := .undefined, active := false, depth := .undefined }
      pure (Bins.setB bins2 binKey { b2 with depth := JsV.jsMax b2.depth xyz.2.2 })
    else pure bins2
  else pure bins1

/-- `Painter.createBins` (painter.js lines 11-36): compute the farthest
depth, clear the bin map, then process every vertex of every item in input
order. -/
def createBins (binSize : ℚ) (ambientValue : JsV) (data : List JsV) (isBackground : Bool) :
    Except JsErr Bins := do
  let maxD ← findFarthestDepth data
  data.foldlM (fun bins item => do
    let vs ← extractVertexList item
    vs.foldlM (processVertex binSize ambientValue maxD isBackground) bins) []

end Painter

/-- Concrete fixture: a structurally valid SubcubeVertices-kind record (a
plain object carrying `valueArray`, as `validateEntity` expects). -/
def svFix : Entity :=
  { id := .str "AAv0", windowUID := .num 1, cubeId := .num 1, subCubeID := .str "AA",
    originID := .str "11",
    valueArray := .arrOf [.arrOf [.num 0, .num 255, .num 0], .arrOf [.num 0, .num 0, .num 0],
                          .num (-3), .str "weightedSphere"] }

/-- The store obtained by saving `svFix` into a fresh database: its padding
is recomputed to 3 = abs (-3) and it sits in the SubcubeVertices store. -/
def svFixStore : Store :=
  ⟨Function.update Store.empty.tbl "SubcubeVertices"
    ((Store.empty.tbl "SubcubeVertices").putK (svFix.keyOf "SubcubeVertices")
      { svFix with proximityPadding := .num 3 })⟩

/-- Concrete fixture: a Cubes-kind record built by the model constructors
whose nested vertex colors are far outside [0,255]. -/
def cubeWildColors : Entity :=
  Cube.make (.num 1) (.num 1) (.arrOf [.num 0, .num 0, .num 0]) (.arrOf [.str "AA"])
    [CubeVertex.make (.str "1vrtx0") (.num 1) (.arrOf [.num 0, .num 0, .num 0])
      (.arrOf [.num 999, .num (-5), .num 1000]) (.str "blendBackground")]
    (.str "blendBackground")

/-- Concrete fixture: a structurally valid Subcubes-kind record whose
originID ("99") mismatches the expected "11". -/
def subFix : Entity :=
  { id := .str "AA", windowUID := .num 1, cubeId := .num 1, originID := .str "99",
    center := .arrOf [.num 0, .num 0, .num 0], vertexArray := .arrOf [] }

/-- Concrete fixture: a Subcubes-kind record that is structurally invalid
(no vertexArray at all) and also carries a mismatched originID. -/
def badOriginSubcube : Entity :=
  { id := .num 5, windowUID := .num 1, cubeId := .num 1, originID := .str "99" }

/-- Concrete fixture: a Cubes-kind record with a valid key. -/
def cubeFix : Entity := { id := .num 1, windowUID := .num 1 }

/-- Concrete fixture: a SubcubeVertices-kind record with a valid key that
fails `validateEntity` (its `valueArray` is undefined). -/
def badVertFix : Entity :=
  { id := .str "bad", windowUID := .num 1, cubeId := .num 1, originID := .str "11" }

/-- The counterexample bundle: a valid cube plus a subcube vertex that
fails validation. -/
def hierBundleFix : CubeStorage.CubeData :=
  { cube := cubeFix, subcubeVertices := some [badVertFix] }

/-- The hierarchy update of the counterexample bundle. -/
def hierFixResult : Except JsErr Store :=
  CubeStorage.updateCubeHierarchy Store.empty hierBundleFix

/-- Whether the counterexample bundle committed and both its entities are
visible by key afterwards. -/
def hierFixVisible : Bool :=
  match hierFixResult with
  | .ok db2 =>
    (match CubeStorage.get db2 (.num 1) "Cubes" with
     | .ok (some e) => decide (e = cubeFix)
     | _ => false)
    && (match CubeStorage.get db2 (.str "bad") "SubcubeVertices" with
        | .ok (some e) => decide (e = badVertFix)
        | _ => false)
  | .error _ => false

/-- Concrete fixture: a painter vertex object whose valueArray resolves to
the BlendCornerByProximity strategy. -/
def vtxFix : JsV :=
  .objOf [("valueArray", .arrOf [.arrOf [.num 0, .num 0, .num 0], .arrOf [.num 0, .num 0, .num 0],
                                 .num 1, .str "BlendCornerByProximity"])]

/-- Concrete fixture: a painter item whose `value[2]` carries `vtxFix`. -/
def itemFix : JsV := .objOf [("value", .arrOf [.undefined, .undefined, .arrOf [vtxFix]])]

/-- Concrete fixture: the default painter ambient value `[10, 10, 10]`. -/
def ambientFix : JsV := .arrOf [.num 10, .num 10, .num 10]

/-- Reduction of the Except monad's bind on a success. -/
@[simp] theorem okBind {ε α β : Type} (a : α) (f : α → Except ε β) :
    (Except.ok a : Except ε α) >>= f = f a := rfl

/-- Reduction of the Except monad's bind on an error. -/
@[simp] theorem errBind {ε α β : Type} (e : ε) (f : α → Except ε β) :
    (Except.error e : Except ε α) >>= f = Except.error e := rfl

/-- Pure of the Except monad is ok. -/
@[simp] theorem pureExcept {ε α : Type} (a : α) : (pure a : Except ε α) = Except.ok a := rfl

/-- C7: `blendBackground` computes `min(255, base + incoming + ambient)` per
channel on 3-element numeric colors, and in particular maps base [10,10,10],
incoming [250,250,10] and ambient [10,10,10] to [255,255,30] (first two
channels clamped, third not). -/
theorem blendBackground_clamped_additive
    (b0 b1 b2 i0 i1 i2 a0 a1 a2 : ℚ) (w : JsV) :
    blendingFunctions.blendBackground (.arrOf [.num b0, .num b1, .num b2])
      (.arrOf [.num i0, .num i1, .num i2])
      { weight := w, ambient := .arrOf [.num a0, .num a1, .num a2] } =
      .ok (.arrOf [.num (min 255 (b0 + i0 + a0)), .num (min 255 (b1 + i1 + a1)),
                   .num (min 255 (b2 + i2 + a2))]) ∧
    blendingFunctions.blendBackground (.arrOf [.num 10, .num 10, .num 10])
      (.arrOf [.num 250, .num 250, .num 10])
      { ambient := .arrOf [.num 10, .num 10, .num 10] } =
      .ok (.arrOf [.num 255, .num 255, .num 30]) := by
  constructor
  · rfl
  · show Except.ok (JsV.arrOf [.num (min 255 (10 + 250 + 10)), .num (min 255 (10 + 250 + 10)),
      .num (min 255 (10 + 10 + 10))]) = _
    norm_num

/-- C5: a SubcubeVertex built by the model class stores its 4-tuple in
`value` and defines no `valueArray`, so validation for the SubcubeVertices
kind — which reads `valueArray` — rejects it with the valueArray
ValidationError whatever the tuple holds, and `save` can never persist a
model-constructed SubcubeVertex. -/
theorem subcubeVertex_model_never_persists
    (id windowUID cubeId subCubeID originID value activeWindowUID : JsV)
    (e : Entity) (db : Store)
    (h : SubcubeVertex.make id windowUID cubeId subCubeID originID value activeWindowUID = .ok e) :
    CubeStorage.validateEntity e "SubcubeVertices" = .error .invalidValueArray ∧
    CubeStorage.save db e "SubcubeVertices" = .error .invalidValueArray ∧
    JsErr.isValidationError .invalidValueArray = true := by
  have hva : e.valueArray = .undefined := by
    cases hidx : value.idxE 2 with
    | error er =>
      rw [SubcubeVertex.make, hidx] at h
      simp at h
    | ok wv =>
      rw [SubcubeVertex.make, hidx] at h
      simp at h
      rw [← h]
  have hval : CubeStorage.validateEntity e "SubcubeVertices" = .error .invalidValueArray := by
    rw [CubeStorage.validateEntity]
    simp only [String.reduceEq, or_true, or_false, if_true, if_false, ite_true, ite_false]
    rw [CubeStorage.validateVertexKind, hva]
    rfl
  refine ⟨hval, ?_, rfl⟩
  rw [CubeStorage.save, hval]
  rfl

/-- C5 witness: the SubcubeVertex built by main.js persists nowhere — its
construction succeeds and its save is rejected with the valueArray
ValidationError. -/
theorem subcubeVertex_model_never_persists_witness :
    CubeStorage.validateEntity
      { id := .str "AAv0", windowUID := .num 1, cubeId := .num 1, subCubeID := .str "AA",
        originID := .str "11",
        value := .arrOf [.arrOf [.num 0, .num 255, .num 0], .arrOf [.num 0, .num 0, .num 0],
                         .num 2, .str "weightedSphere"],
        activeWindowUID := .num 1,
        proximityPadding := .num 2 }
      "SubcubeVertices" = .error .invalidValueArray :=
  (subcubeVertex_model_never_persists (.str "AAv0") (.num 1) (.num 1) (.str "AA") (.str "11")
    (.arrOf [.arrOf [.num 0, .num 255, .num 0], .arrOf [.num 0, .num 0, .num 0],
             .num 2, .str "weightedSphere"]) (.num 1) _ Store.empty (by decide)).1

/-- C9: `validateEntity` has no case for the "Cubes" kind, so every entity —
whatever its shape, including out-of-range nested vertex colors — passes
unchecked, and a save to "Cubes" can only fail at the storage layer (an
invalid key), never with a ValidationError. -/
theorem cubes_kind_never_validated (e : Entity) (db : Store) :
    CubeStorage.validateEntity e "Cubes" = .ok e ∧
    ∀ err : JsErr, CubeStorage.save db e "Cubes" = .error err → err.isValidationError = false := by
  have hv : CubeStorage.validateEntity e "Cubes" = .ok e := rfl
  refine ⟨hv, fun err herr => ?_⟩
  rw [CubeStorage.save, hv] at herr
  simp only [okBind, String.reduceEq, or_false, if_false, ite_false, Store.put] at herr
  rw [if_pos (by decide)] at herr
  split at herr
  · exact absurd herr (by simp)
  · cases herr
    rfl

/-- C9 witness: the model-constructed cube with nested vertex colors 999,
-5, 1000 validates as-is and saves without error. -/
theorem cubes_kind_never_validated_witness :
    CubeStorage.validateEntity cubeWildColors "Cubes" = .ok cubeWildColors ∧
    isErr (CubeStorage.save Store.empty cubeWildColors "Cubes") = false :=
  ⟨(cubes_kind_never_validated cubeWildColors Store.empty).1, by decide⟩

/-- The vertex-kind validation branch rewrites at most `proximityPadding`. -/
theorem validateVertexKind_padding_only (e e2 : Entity)
    (hv : CubeStorage.validateVertexKind e = .ok e2) :
    e2 = { e with proximityPadding := e2.proximityPadding } := by
  rw [CubeStorage.validateVertexKind] at hv
  split at hv
  next color position weight proximity heq =>
    split_ifs at hv
    cases weight <;> try cases hv
    cases proximity <;> try cases hv
    rfl
  next => cases hv

/-- Successful validation rewrites at most the `proximityPadding` field: the
entity that reaches the store is the input with its padding possibly
recomputed. -/
theorem validateEntity_padding_only (e e2 : Entity) (storeName : String)
    (hv : CubeStorage.validateEntity e storeName = .ok e2) :
    e2 = { e with proximityPadding := e2.proximityPadding } := by
  rw [CubeStorage.validateEntity] at hv
  split_ifs at hv
  · exact validateVertexKind_padding_only e e2 hv
  all_goals (cases hv; rfl)

/-- C6: `calculateProximityPadding` is the absolute value of its numeric
weight, and every entity that passes a vertex-kind validated write carries
the 4-tuple `[color, position, weight, proximity]` with a numeric weight
and leaves validation with `proximityPadding` recomputed to exactly
`abs weight`, independently of whatever padding it carried before. -/
theorem proximityPadding_is_abs_weight
    (w : ℚ) (e e2 : Entity) (storeName : String)
    (hsn : storeName = "CubeVertices" ∨ storeName = "SubcubeVertices")
    (hv : CubeStorage.validateEntity e storeName = .ok e2) :
    calculateProximityPadding w = |w| ∧
    ∃ color position wt proximity,
      e.valueArray.listOfArr = some [color, position, .num wt, proximity] ∧
      e2.proximityPadding = .num |wt| := by
  constructor
  · rw [calculateProximityPadding]
    rcases le_or_lt 0 w with h | h
    · rw [if_pos h, abs_of_nonneg h]
    · rw [if_neg (not_le.mpr h), abs_of_neg h]
  · have hv2 : CubeStorage.validateVertexKind e = .ok e2 := by
      rcases hsn with h | h <;> subst h <;> simpa [CubeStorage.validateEntity] using hv
    rw [CubeStorage.validateVertexKind] at hv2
    split at hv2
    next color position weight proximity heq =>
      split_ifs at hv2
      cases weight <;> try cases hv2
      next wt =>
      cases proximity <;> try cases hv2
      next s =>
      refine ⟨color, position, wt, .str s, heq, ?_⟩
      show JsV.num (if 0 ≤ wt then wt else -wt) = .num |wt|
      rcases le_or_lt 0 wt with h | h
      · rw [if_pos h, abs_of_nonneg h]
      · rw [if_neg (not_le.mpr h), abs_of_neg h]
    next => cases hv2

/-- C6 witness: `calculateProximityPadding` at -3, with the fixture entity
whose weight is -3 discharging the validated-write hypothesis. -/
theorem proximityPadding_is_abs_weight_witness :
    calculateProximityPadding (-3) = |(-3 : ℚ)| :=
  (proximityPadding_is_abs_weight (-3) svFix { svFix with proximityPadding := .num 3 }
    "SubcubeVertices" (Or.inr rfl) (by decide)).1

/-- C3 counterexample: a Subcubes-kind record with a mismatched originID
("99" where "11" is expected) that is also structurally invalid fails save
with the vertexArray ValidationError, not the ConsistencyError the claim
promises for every mismatched save — `validateEntity` runs first. -/
theorem originID_counterexample :
    badOriginSubcube.originID ≠
      .str (badOriginSubcube.windowUID.jsStr ++ badOriginSubcube.cubeId.jsStr) ∧
    errOf (CubeStorage.save Store.empty badOriginSubcube "Subcubes") =
      some .invalidVertexArray ∧
    JsErr.isConsistencyError .invalidVertexArray = false := by decide

/-- C3 amended: for a Subcubes/SubcubeVertices entity that passes structural
validation, a mismatched originID always fails `save` with the
ConsistencyError, raised instead of any write (`save` yields no store);
structurally invalid entities are instead rejected by the preceding
ValidationError, likewise before any write. -/
theorem originID_mismatch_fails_consistently
    (db : Store) (e e2 : Entity) (storeName : String)
    (hsn : storeName = "Subcubes" ∨ storeName = "SubcubeVertices")
    (hv : CubeStorage.validateEntity e storeName = .ok e2)
    (hne : e.originID ≠ .str (e.windowUID.jsStr ++ e.cubeId.jsStr)) :
    CubeStorage.save db e storeName =
      .error (.invalidOriginID (e.windowUID.jsStr ++ e.cubeId.jsStr) e.originID.jsStr) ∧
    JsErr.isConsistencyError
      (.invalidOriginID (e.windowUID.jsStr ++ e.cubeId.jsStr) e.originID.jsStr) = true := by
  have hfields := validateEntity_padding_only e e2 storeName hv
  have ho : e2.originID = e.originID := by rw [hfields]
  have hw : e2.windowUID = e.windowUID := by rw [hfields]
  have hc : e2.cubeId = e.cubeId := by rw [hfields]
  refine ⟨?_, rfl⟩
  rw [CubeStorage.save, hv]
  simp only [okBind]
  rw [if_pos hsn, ho, hw, hc, CubeStorage.validateOriginID]
  simp only [if_neg hne]
  rfl

/-- Lookup after upsert at the same key yields the new record. -/
theorem getK_putK_self (c : Coll) (k : JsV) (e : Entity) :
    (c.putK k e).getK k = some e := by
  induction c with
  | nil => simp [Coll.putK, Coll.getK]
  | cons p rest ih =>
    obtain ⟨k1, e1⟩ := p
    rw [Coll.putK]
    by_cases hk : k1 = k
    · rw [if_pos hk, Coll.getK, if_pos rfl]
    · rw [if_neg hk, Coll.getK, if_neg hk]
      exact ih

/-- Lookup after upsert at a different key is unchanged. -/
theorem getK_putK_other (c : Coll) (k k2 : JsV) (e : Entity) (h : k2 ≠ k) :
    (c.putK k e).getK k2 = c.getK k2 := by
  induction c with
  | nil =>
    rw [Coll.putK, Coll.getK, Coll.getK, if_neg (fun hh => h hh.symm), Coll.getK]
  | cons p rest ih =>
    obtain ⟨k1, e1⟩ := p
    rw [Coll.putK]
    by_cases hk : k1 = k
    · subst hk
      rw [if_pos rfl, Coll.getK, Coll.getK, if_neg (fun hh => h hh.symm),
        if_neg (fun hh => h hh.symm)]
    · rw [if_neg hk, Coll.getK, Coll.getK]
      by_cases h2 : k1 = k2
      · rw [if_pos h2, if_pos h2]
      · rw [if_neg h2, if_neg h2]
        exact ih

/-- A successful put makes the record visible by key in its store. -/
theorem put_get_same (db db2 : Store) (sn : String) (e : Entity)
    (h : db.put sn e = .ok db2) :
    CubeStorage.get db2 (e.keyOf sn) sn = .ok (some e) := by
  rw [Store.put] at h
  split_ifs at h with h1 h2
  cases h
  rw [CubeStorage.get, if_pos h1]
  show Except.ok
    (Coll.getK (Function.update db.tbl sn ((db.tbl sn).putK (e.keyOf sn) e) sn) (e.keyOf sn)) = _
  rw [Function.update_same, getK_putK_self]

/-- C4: whenever `save` succeeds, a `get` with the input entity's key and
kind returns exactly the validated entity: the input with its
`proximityPadding` derived field (re)populated and every other field as
constructed. -/
theorem save_get_roundtrip (db db2 : Store) (e : Entity) (storeName : String)
    (h : CubeStorage.save db e storeName = .ok db2) :
    ∃ p : JsV, CubeStorage.get db2 (e.keyOf storeName) storeName =
      .ok (some { e with proximityPadding := p }) := by
  rw [CubeStorage.save] at h
  cases hv : CubeStorage.validateEntity e storeName with
  | error er =>
    rw [hv] at h
    cases h
  | ok e2 =>
    rw [hv] at h
    simp only [okBind] at h
    have hpad := validateEntity_padding_only e e2 storeName hv
    have hput : db.put storeName e2 = .ok db2 := by
      split_ifs at h
      · cases ho : CubeStorage.validateOriginID e2.originID e2.windowUID e2.cubeId with
        | error er =>
          rw [ho] at h
          cases h
        | ok u =>
          rw [ho] at h
          simpa only [okBind] using h
      · exact h
    have hget := put_get_same db db2 storeName e2 hput
    have hkey : e2.keyOf storeName = e.keyOf storeName := by
      rw [hpad]
      rfl
    rw [hkey] at hget
    refine ⟨e2.proximityPadding, ?_⟩
    rw [← hpad]
    exact hget

/-- C4 witness: saving the valid subcube-vertex fixture into a fresh store
and reading its key back returns the fixture with padding 3. -/
theorem save_get_roundtrip_witness :
    CubeStorage.get svFixStore (svFix.keyOf "SubcubeVertices") "SubcubeVertices" =
      .ok (some { svFix with proximityPadding := .num 3 }) := by
  obtain ⟨p, hp⟩ := save_get_roundtrip Store.empty svFixStore svFix "SubcubeVertices" rfl
  decide

/-- A successful put rewrites its own store to the upserted collection. -/
theorem put_tbl_same (db db2 : Store) (sn : String) (e : Entity)
    (h : db.put sn e = .ok db2) :
    db2.tbl sn = (db.tbl sn).putK (e.keyOf sn) e := by
  rw [Store.put] at h
  split_ifs at h
  cases h
  exact Function.update_same sn _ db.tbl

/-- A successful put leaves every other store untouched. -/
theorem put_tbl_other (db db2 : Store) (sn sn2 : String) (e : Entity)
    (h : db.put sn e = .ok db2) (hne : sn2 ≠ sn) : db2.tbl sn2 = db.tbl sn2 := by
  rw [Store.put] at h
  split_ifs at h
  cases h
  exact Function.update_noteq hne _ db.tbl

/-- A put succeeds on a known store and a valid key. -/
theorem put_ok_of (db : Store) (sn : String) (e : Entity)
    (hsn : sn ∈ storeNames) (hk : isValidKey (e.keyOf sn) = true) :
    ∃ db2, db.put sn e = .ok db2 :=
  ⟨_, by rw [Store.put, if_pos hsn, if_pos hk]⟩

/-- A sequence of puts succeeds when every key is valid. -/
theorem putAll_ok (db : Store) (sn : String) (es : List Entity)
    (hsn : sn ∈ storeNames) (hks : ∀ e ∈ es, isValidKey (e.keyOf sn) = true) :
    ∃ db2, CubeStorage.putAll db sn es = .ok db2 := by
  induction es generalizing db with
  | nil => exact ⟨db, rfl⟩
  | cons e rest ih =>
    obtain ⟨d1, h1⟩ := put_ok_of db sn e hsn (hks e (List.mem_cons_self e rest))
    obtain ⟨d2, h2⟩ := ih d1 (fun e2 hm => hks e2 (List.mem_cons_of_mem e hm))
    refine ⟨d2, ?_⟩
    rw [CubeStorage.putAll, List.foldlM_cons, h1]
    simpa only [okBind] using h2

/-- A sequence of puts leaves every other store untouched. -/
theorem putAll_tbl_other (db db2 : Store) (sn sn2 : String) (es : List Entity)
    (h : CubeStorage.putAll db sn es = .ok db2) (hne : sn2 ≠ sn) :
    db2.tbl sn2 = db.tbl sn2 := by
  induction es generalizing db with
  | nil =>
    cases h
    rfl
  | cons e rest ih =>
    rw [CubeStorage.putAll, List.foldlM_cons] at h
    cases hp : db.put sn e with
    | error er =>
      rw [hp] at h
      cases h
    | ok d1 =>
      rw [hp] at h
      simp only [okBind] at h
      rw [ih d1 h, put_tbl_other db d1 sn sn2 e hp hne]

/-- A sequence of puts does not disturb keys none of its entities use. -/
theorem putAll_getK_preserve (db db2 : Store) (sn : String) (es : List Entity) (k : JsV)
    (h : CubeStorage.putAll db sn es = .ok db2)
    (hk : ∀ e2 ∈ es, e2.keyOf sn ≠ k) :
    (db2.tbl sn).getK k = (db.tbl sn).getK k := by
  induction es generalizing db with
  | nil =>
    cases h
    rfl
  | cons e rest ih =>
    rw [CubeStorage.putAll, List.foldlM_cons] at h
    cases hp : db.put sn e with
    | error er =>
      rw [hp] at h
      cases h
    | ok d1 =>
      rw [hp] at h
      simp only [okBind] at h
      rw [ih d1 h (fun e2 hm => hk e2 (List.mem_cons_of_mem e hm)), put_tbl_same db d1 sn e hp,
        getK_putK_other _ _ _ _ (fun hh => hk e (List.mem_cons_self e rest) hh.symm)]

/-- After a sequence of puts with pairwise distinct keys, every written
entity is visible under its key. -/
theorem putAll_get (db db2 : Store) (sn : String) (es : List Entity)
    (h : CubeStorage.putAll db sn es = .ok db2)
    (hnd : (es.map (fun e => e.keyOf sn)).Nodup)
    (e : Entity) (he : e ∈ es) :
    (db2.tbl sn).getK (e.keyOf sn) = some e := by
  induction es generalizing db with
  | nil => cases he
  | cons e1 rest ih =>
    rw [List.map_cons, List.nodup_cons] at hnd
    rw [CubeStorage.putAll, List.foldlM_cons] at h
    cases hp : db.put sn e1 with
    | error er =>
      rw [hp] at h
      cases h
    | ok d1 =>
      rw [hp] at h
      simp only [okBind] at h
      rcases List.mem_cons.mp he with he1 | he2
      · subst he1
        have hpres : (db2.tbl sn).getK (e.keyOf sn) = (d1.tbl sn).getK (e.keyOf sn) := by
          refine putAll_getK_preserve d1 db2 sn rest (e.keyOf sn) h ?_
          intro e2 hm heq
          exact hnd.1 (heq ▸ List.mem_map_of_mem (fun x => x.keyOf sn) hm)
        rw [hpres, put_tbl_same db d1 sn e hp, getK_putK_self]
      · exact ih d1 h hnd.2 he2

/-- C1 counterexample: a bundle containing an entity that fails validation
(`badVertFix` is rejected by `validateEntity`) is nonetheless committed in
full by `updateCubeHierarchy`: the update resolves and both the cube and
the invalid vertex are visible via `get` afterwards, contradicting the
all-or-nothing-on-validation-failure claim. -/
theorem updateCubeHierarchy_counterexample :
    isErr (CubeStorage.validateEntity badVertFix "SubcubeVertices") = true ∧
    hierFixVisible = true := by decide

/-- C1 amended: `updateCubeHierarchy` performs no validation at all.
Whenever every bundle entity carries a valid store key (keys distinct
within each part), the whole bundle is committed and every entity —
including any that fail `validateEntity` — is visible via `get` afterwards;
only storage-level put failures can abort the transaction. -/
theorem updateCubeHierarchy_unvalidated
    (db : Store) (cd : CubeStorage.CubeData)
    (hck : isValidKey (cd.cube.keyOf "Cubes") = true)
    (hsk : ∀ e ∈ cd.subcubes.getD [], isValidKey (e.keyOf "Subcubes") = true)
    (hvk : ∀ e ∈ cd.subcubeVertices.getD [], isValidKey (e.keyOf "SubcubeVertices") = true)
    (hcvk : ∀ e ∈ cd.cubeVertices.getD [], isValidKey (e.keyOf "CubeVertices") = true)
    (nds : ((cd.subcubes.getD []).map (fun e => e.keyOf "Subcubes")).Nodup)
    (ndv : ((cd.subcubeVertices.getD []).map (fun e => e.keyOf "SubcubeVertices")).Nodup)
    (ndc : ((cd.cubeVertices.getD []).map (fun e => e.keyOf "CubeVertices")).Nodup) :
    ∃ db2, CubeStorage.updateCubeHierarchy db cd = .ok db2 ∧
      CubeStorage.get db2 (cd.cube.keyOf "Cubes") "Cubes" = .ok (some cd.cube) ∧
      (∀ e ∈ cd.subcubes.getD [],
        CubeStorage.get db2 (e.keyOf "Subcubes") "Subcubes" = .ok (some e)) ∧
      (∀ e ∈ cd.subcubeVertices.getD [],
        CubeStorage.get db2 (e.keyOf "SubcubeVertices") "SubcubeVertices" = .ok (some e)) ∧
      (∀ e ∈ cd.cubeVertices.getD [],
        CubeStorage.get db2 (e.keyOf "CubeVertices") "CubeVertices" = .ok (some e)) := by
  obtain ⟨d1, h1⟩ := put_ok_of db "Cubes" cd.cube (by decide) hck
  obtain ⟨d2, h2⟩ := putAll_ok d1 "Subcubes" (cd.subcubes.getD []) (by decide) hsk
  obtain ⟨d3, h3⟩ := putAll_ok d2 "SubcubeVertices" (cd.subcubeVertices.getD []) (by decide) hvk
  obtain ⟨d4, h4⟩ := putAll_ok d3 "CubeVertices" (cd.cubeVertices.getD []) (by decide) hcvk
  refine ⟨d4, ?_, ?_, ?_, ?_, ?_⟩
  · rw [CubeStorage.updateCubeHierarchy, h1]
    simp only [okBind]
    rw [h2]
    simp only [okBind]
    rw [h3]
    simp only [okBind]
    exact h4
  · rw [CubeStorage.get, if_pos (by decide)]
    rw [putAll_tbl_other d3 d4 "CubeVertices" "Cubes" _ h4 (by decide),
      putAll_tbl_other d2 d3 "SubcubeVertices" "Cubes" _ h3 (by decide),
      putAll_tbl_other d1 d2 "Subcubes" "Cubes" _ h2 (by decide),
      put_tbl_same db d1 "Cubes" cd.cube h1, getK_putK_self]
  · intro e he
    rw [CubeStorage.get, if_pos (by decide)]
    rw [putAll_tbl_other d3 d4 "CubeVertices" "Subcubes" _ h4 (by decide),
      putAll_tbl_other d2 d3 "SubcubeVertices" "Subcubes" _ h3 (by decide),
      putAll_get d1 d2 "Subcubes" _ h2 nds e he]
  · intro e he
    rw [CubeStorage.get, if_pos (by decide)]
    rw [putAll_tbl_other d3 d4 "CubeVertices" "SubcubeVertices" _ h4 (by decide),
      putAll_get d2 d3 "SubcubeVertices" _ h3 ndv e he]
  · intro e he
    rw [CubeStorage.get, if_pos (by decide)]
    rw [putAll_get d3 d4 "CubeVertices" _ h4 ndc e he]

/-- C1 amended witness: the counterexample bundle satisfies the key
hypotheses, so the amended theorem applies to it and its update resolves. -/
theorem updateCubeHierarchy_unvalidated_witness :
    isErr (CubeStorage.updateCubeHierarchy Store.empty hierBundleFix) = false := by
  obtain ⟨db2, h, -⟩ := updateCubeHierarchy_unvalidated Store.empty hierBundleFix
    (by decide) (by decide) (by decide) (by decide) (by decide) (by decide) (by decide)
  rw [h]
  rfl

/-- Membership in the inclusive loop range. -/
theorem mem_intRange (lo hi k : ℤ) : k ∈ SpatialIndex.intRange lo hi ↔ lo ≤ k ∧ k ≤ hi := by
  rw [SpatialIndex.intRange]
  simp only [List.mem_map, List.mem_range]
  constructor
  · rintro ⟨i, hi2, rfl⟩
    omega
  · rintro ⟨h1, h2⟩
    exact ⟨(k - lo).toNat, by omega, by omega⟩

/-- Coarsening bound: moving at most r along one axis moves the bin index
by at most ceil (r / binSize). -/
theorem floor_div_le_of_le (s a b r : ℚ) (hs : 0 < s) (h : a ≤ b + r) :
    ⌊a / s⌋ ≤ ⌊b / s⌋ + ⌈r / s⌉ := by
  have h1 : a / s ≤ b / s + r / s := by
    rw [← add_div]
    gcongr
  have h2 : b / s + r / s ≤ b / s + (⌈r / s⌉ : ℚ) := by
    have := Int.le_ceil (r / s)
    linarith
  calc ⌊a / s⌋ ≤ ⌊b / s + (⌈r / s⌉ : ℚ)⌋ := Int.floor_le_floor (le_trans h1 h2)
    _ = ⌊b / s⌋ + ⌈r / s⌉ := Int.floor_add_int _ _

/-- One axis of the squared-distance bound: each coordinate difference is
at most the radius in absolute value. -/
theorem axis_le_of_distSq (x r d2 : ℚ) (hx : x ^ 2 ≤ d2) (hd : d2 ≤ r ^ 2) (hr : 0 ≤ r) :
    -r ≤ x ∧ x ≤ r := by
  constructor <;> nlinarith [sq_nonneg (x + r), sq_nonneg (x - r)]

/-- C2: with a positive bin size, the radius query returns an entity iff it
is indexed and its exact Euclidean distance to the query point is at most
the radius (inclusive): the cube-shaped neighborhood of half-width
ceil (radius / binSize) around the point's cell contains the cell of every
true match, so there are no false negatives, and the exact distance filter
admits no false positives. -/
theorem queryNearPosition_mem {α : Type} (pos : α → Vec3) (binSize : ℚ)
    (hb : 0 < binSize) (entities : List α) (point : Vec3) (radius : ℚ) (e : α) :
    e ∈ SpatialIndex.queryNearPosition pos binSize entities point radius ↔
      e ∈ entities ∧ SpatialIndex.withinRadius point (pos e) radius = true := by
  rw [SpatialIndex.queryNearPosition]
  simp only [List.mem_flatMap, List.mem_filter, SpatialIndex.binCell, mem_intRange,
    SpatialIndex.getBinCoords, decide_eq_true_eq]
  constructor
  · rintro ⟨bx, _, b2, _, b3, _, ⟨hmem, _⟩, hwr⟩
    exact ⟨hmem, hwr⟩
  · rintro ⟨hmem, hwr⟩
    have hwr2 := hwr
    rw [SpatialIndex.withinRadius, Bool.and_eq_true, decide_eq_true_eq, decide_eq_true_eq]
      at hwr2
    obtain ⟨hr, hd⟩ := hwr2
    rw [SpatialIndex.distSq] at hd
    have hx := axis_le_of_distSq (point.x - (pos e).x) radius _
      (by nlinarith [sq_nonneg (point.y - (pos e).y), sq_nonneg (point.z - (pos e).z)]) hd hr
    have hy := axis_le_of_distSq (point.y - (pos e).y) radius _
      (by nlinarith [sq_nonneg (point.x - (pos e).x), sq_nonneg (point.z - (pos e).z)]) hd hr
    have hz := axis_le_of_distSq (point.z - (pos e).z) radius _
      (by nlinarith [sq_nonneg (point.x - (pos e).x), sq_nonneg (point.y - (pos e).y)]) hd hr
    refine ⟨⌊(pos e).x / binSize⌋, ?_, ⌊(pos e).y / binSize⌋, ?_, ⌊(pos e).z / binSize⌋, ?_,
      ⟨hmem, rfl⟩, hwr⟩
    · have hu := floor_div_le_of_le binSize (pos e).x point.x radius hb (by linarith [hx.1])
      have hl := floor_div_le_of_le binSize point.x (pos e).x radius hb (by linarith [hx.2])
      constructor <;> omega
    · have hu := floor_div_le_of_le binSize (pos e).y point.y radius hb (by linarith [hy.1])
      have hl := floor_div_le_of_le binSize point.y (pos e).y radius hb (by linarith [hy.2])
      constructor <;> omega
    · have hu := floor_div_le_of_le binSize (pos e).z point.z radius hb (by linarith [hz.1])
      have hl := floor_div_le_of_le binSize point.z (pos e).z radius hb (by linarith [hz.2])
      constructor <;> omega

/-- C2 witness: the spec's scenario — a grid of bin size 50 over entities
at the origin and at (60,60,60) — queried at the origin with radius 10. -/
theorem queryNearPosition_mem_witness :
    (0 : ℚ) < 50 ∧
    (Vec3.mk 0 0 0 ∈ SpatialIndex.queryNearPosition (fun v => v) 50
        [Vec3.mk 0 0 0, Vec3.mk 60 60 60] (Vec3.mk 0 0 0) 10 ↔
      (Vec3.mk 0 0 0 ∈ [Vec3.mk 0 0 0, Vec3.mk 60 60 60] ∧
        SpatialIndex.withinRadius (Vec3.mk 0 0 0) (Vec3.mk 0 0 0) 10 = true)) :=
  ⟨by decide, queryNearPosition_mem (fun v => v) 50 (by decide)
    [Vec3.mk 0 0 0, Vec3.mk 60 60 60] (Vec3.mk 0 0 0) 10 (Vec3.mk 0 0 0)⟩

/-- C8 counterexample: "toString" is not one of the three registered
strategy names, yet `Painter.blend` does not resolve it to
`blendBackground`: the property lookup finds the inherited
`Object.prototype.toString`, whose call returns "[object Undefined]" — not
the additive blend of the ambient value. -/
theorem blend_fallback_counterexample :
    Painter.blend ambientFix (.arrOf [.num 0, .num 0, .num 0]) (.arrOf [.num 0, .num 0, .num 0])
      .undefined (.str "toString") = .ok (.str "[object Undefined]") ∧
    Painter.blend ambientFix (.arrOf [.num 0, .num 0, .num 0]) (.arrOf [.num 0, .num 0, .num 0])
      .undefined (.str "toString") ≠
      blendingFunctions.blendBackground (.arrOf [.num 0, .num 0, .num 0])
        (.arrOf [.num 0, .num 0, .num 0]) { weight := .undefined, ambient := ambientFix } ∧
    "toString" ∉ ["BlendCornerByProximity", "BlendVrtxByWeight", "blendBackground"] := by
  have hbb : blendingFunctions.blendBackground (.arrOf [.num 0, .num 0, .num 0])
      (.arrOf [.num 0, .num 0, .num 0]) { weight := .undefined, ambient := ambientFix } =
      .ok (.acons (JsV.jsMin (.num 255) (JsV.jsAdd (JsV.jsAdd (.num 0) (.num 0)) (.num 10)))
        (.acons (JsV.jsMin (.num 255) (JsV.jsAdd (JsV.jsAdd (.num 0) (.num 0)) (.num 10)))
          (.acons (JsV.jsMin (.num 255) (JsV.jsAdd (JsV.jsAdd (.num 0) (.num 0)) (.num 10)))
            .anil))) := rfl
  refine ⟨rfl, ?_, by decide⟩
  intro h
  rw [hbb] at h
  cases h

/-- C8 amended: a strategy identifier that is neither one of the three
registered names nor an inherited Object.prototype property name resolves
to `blendBackground`, which is applied with the painter's ambient value;
identifiers naming inherited members (e.g. "toString") instead resolve to
those members and bypass the fallback. -/
theorem blend_unknown_falls_back
    (ambientValue color1 color2 weight : JsV) (name : String)
    (h1 : name ∉ ["BlendCornerByProximity", "BlendVrtxByWeight", "blendBackground"])
    (h2 : name ∉ blendingFunctions.objectPrototypeNames) :
    Painter.blend ambientValue color1 color2 weight (.str name) =
      blendingFunctions.blendBackground color1 color2
        { weight := weight, ambient := ambientValue } := by
  simp only [List.mem_cons, List.not_mem_nil, or_false, not_or] at h1
  obtain ⟨n1, n2, n3⟩ := h1
  rw [Painter.blend]
  show (match blendingFunctions.ownBlendingFunctions name with
    | some f => f color1 color2 { weight := weight, ambient := ambientValue }
    | none =>
      if name ∈ blendingFunctions.objectPrototypeNames then
        blendingFunctions.inheritedCall name color1
      else
        blendingFunctions.blendBackground color1 color2
          { weight := weight, ambient := ambientValue }) = _
  rw [blendingFunctions.ownBlendingFunctions, if_neg n1, if_neg n2, if_neg n3]
  exact if_neg h2

/-- C8 amended witness: the unregistered, non-inherited identifier
"weightedSphere" falls back to the additive background blend. -/
theorem blend_unknown_falls_back_witness :
    Painter.blend ambientFix (.arrOf [.num 0, .num 0, .num 0]) (.arrOf [.num 0, .num 0, .num 0])
      .undefined (.str "weightedSphere") =
      blendingFunctions.blendBackground (.arrOf [.num 0, .num 0, .num 0])
        (.arrOf [.num 0, .num 0, .num 0]) { weight := .undefined, ambient := ambientFix } :=
  blend_unknown_falls_back ambientFix (.arrOf [.num 0, .num 0, .num 0])
    (.arrOf [.num 0, .num 0, .num 0]) .undefined "weightedSphere" (by decide) (by decide)

/-- An erring step somewhere in a monadic fold makes the whole fold err. -/
theorem foldlM_isErr_of_mem {σ α : Type} (step : σ → α → Except JsErr σ) (l : List α) (v : α)
    (hv : v ∈ l) (hstep : ∀ s, isErr (step s v) = true) (s0 : σ) :
    isErr (l.foldlM step s0) = true := by
  induction l generalizing s0 with
  | nil => cases hv
  | cons x xs ih =>
    rw [List.foldlM_cons]
    cases hs : step s0 x with
    | error er => rfl
    | ok s1 =>
      simp only [okBind]
      rcases List.mem_cons.mp hv with h | h
      · subst h
        have := hstep s0
        rw [hs] at this
        cases this
      · exact ih h s1

/-- Dispatch at the BlendCornerByProximity key reaches the strategy and
throws its ReferenceError. -/
theorem blend_at_BCBP (ambientValue c1 c2 w : JsV) (k : JsV)
    (hk : k.jsStr = "BlendCornerByProximity") :
    Painter.blend ambientValue c1 c2 w k = .error (.referenceError "distanceToSubject") := by
  rw [Painter.blend]
  show (match blendingFunctions.ownBlendingFunctions k.jsStr with
    | some f => f c1 c2 { weight := w, ambient := ambientValue }
    | none =>
      if k.jsStr ∈ blendingFunctions.objectPrototypeNames then
        blendingFunctions.inheritedCall k.jsStr c1
      else
        blendingFunctions.blendBackground c1 c2 { weight := w, ambient := ambientValue }) = _
  rw [hk]
  rfl

/-- A vertex whose createBins processing resolves to the
BlendCornerByProximity identifier makes its processing step fail, whatever
the bin map is. -/
theorem processVertex_errs (binSize : ℚ) (ambientValue : JsV) (maxD : Painter.DepthVal)
    (isBackground : Bool) (vertex : JsV) (k : JsV)
    (hres : Painter.resolvedStrategy maxD vertex = .ok (some k))
    (hk : k.jsStr = "BlendCornerByProximity") (bins : Painter.Bins) :
    isErr (Painter.processVertex binSize ambientValue maxD isBackground bins vertex) = true := by
  rw [Painter.resolvedStrategy] at hres
  rw [Painter.processVertex]
  cases hva : vertex.propE "valueArray" with
  | error er =>
    rw [hva] at hres
    simp at hres
  | ok va =>
    rw [hva] at hres
    simp only [okBind] at hres
    simp only [okBind]
    cases hpv : Painter.vertexField vertex va 1 with
    | error er =>
      rw [hpv] at hres
      simp at hres
    | ok posV =>
      rw [hpv] at hres
      simp only [okBind] at hres
      simp only [okBind]
      cases hd3 : posV.destructure3 with
      | error er =>
        rw [hd3] at hres
        simp at hres
      | ok xyz =>
        rw [hd3] at hres
        simp only [okBind] at hres
        simp only [okBind]
        cases hb1 : Painter.ensureBin ambientValue bins
            (Painter.binKeyOf binSize isBackground xyz) xyz.2.2 with
        | error er => rfl
        | ok bins1 =>
          simp only [okBind]
          cases hdf : Painter.depthFilter xyz.2.2 maxD with
          | false =>
            rw [hdf] at hres
            simp at hres
          | true =>
            rw [hdf] at hres
            simp only [eq_self_iff_true, if_true] at hres ⊢
            cases hbl : Painter.resolveBlendLogic vertex va with
            | error er => rfl
            | ok bl =>
              rw [hbl] at hres
              simp only [okBind, pureExcept] at hres
              cases hres
              simp only [okBind]
              cases hc2 : Painter.vertexField vertex va 0 with
              | error er => rfl
              | ok c2 =>
                simp only [okBind]
                cases hwv : Painter.vertexField vertex va 2 with
                | error er => rfl
                | ok w =>
                  simp only [okBind]
                  rw [blend_at_BCBP ambientValue _ c2 w _ hk]
                  rfl

/-- C10: every invocation of BlendCornerByProximity throws the
ReferenceError for the unbound identifier `distanceToSubject`, and
consequently `createBins` fails whenever some processed vertex reaches the
strategy-resolution step with that identifier (vertices filtered out by the
depth check resolve to nothing and are exempt). -/
theorem blendCornerByProximity_always_throws
    (binSize : ℚ) (ambientValue : JsV) (data : List JsV) (isBackground : Bool)
    (maxD : Painter.DepthVal) (item vertex : JsV) (vs : List JsV) (k : JsV)
    (hfd : Painter.findFarthestDepth data = .ok maxD)
    (hitem : item ∈ data)
    (hvs : Painter.extractVertexList item = .ok vs)
    (hv : vertex ∈ vs)
    (hres : Painter.resolvedStrategy maxD vertex = .ok (some k))
    (hk : k.jsStr = "BlendCornerByProximity") :
    (∀ c1 c2 p, blendingFunctions.BlendCornerByProximity c1 c2 p =
      .error (.referenceError "distanceToSubject")) ∧
    isErr (Painter.createBins binSize ambientValue data isBackground) = true := by
  refine ⟨fun c1 c2 p => rfl, ?_⟩
  rw [Painter.createBins, hfd]
  simp only [okBind]
  refine foldlM_isErr_of_mem _ data item hitem (fun binsAcc => ?_) []
  show isErr (do
    let vs2 ← Painter.extractVertexList item
    vs2.foldlM (Painter.processVertex binSize ambientValue maxD isBackground) binsAcc) = true
  rw [hvs]
  simp only [okBind]
  exact foldlM_isErr_of_mem _ vs vertex hv
    (fun b => processVertex_errs binSize ambientValue maxD isBackground vertex k hres hk b)
    binsAcc

/-- C10 witness: a single item whose one vertex carries the
BlendCornerByProximity identifier at depth 0 makes createBins throw. -/
theorem blendCornerByProximity_always_throws_witness :
    isErr (Painter.createBins 10 ambientFix [itemFix] false) = true :=
  (blendCornerByProximity_always_throws 10 ambientFix [itemFix] false (.fin 0) itemFix vtxFix
    [vtxFix] (.str "BlendCornerByProximity") (by decide) (by decide) (by decide) (by decide)
    (by
      have hdf : Painter.depthFilter (.num 0) (.fin 0) = true := by
        show decide ((0 : ℚ) ≤ 0 + 1) = true
        simp only [decide_eq_true_eq]
        norm_num
      calc Painter.resolvedStrategy (.fin 0) vtxFix
          = if Painter.depthFilter (.num 0) (.fin 0) then
              .ok (some (.str "BlendCornerByProximity"))
            else .ok none := rfl
        _ = .ok (some (.str "BlendCornerByProximity")) := by rw [hdf, if_pos rfl]
      )
    rfl).2

/-- C3 amended witness: the structurally valid subcube fixture with
originID "99" fails save with the ConsistencyError naming expected "11". -/
theorem originID_mismatch_fails_consistently_witness :
    CubeStorage.save Store.empty subFix "Subcubes" =
      .error (.invalidOriginID (subFix.windowUID.jsStr ++ subFix.cubeId.jsStr)
        subFix.originID.jsStr) :=
  (originID_mismatch_fails_consistently Store.empty subFix subFix "Subcubes"
    (Or.inl rfl) (by decide) (by decide)).1

end Cubes
